import Mathlib

/-!
Shallow embedding of the fleet-management canister
(`src/dfinity_js_backend/src/index.ts`).  The source file holds two
near-identical handler sets ("variant 1" and "variant 2"); definitions whose
two variants coincide are given once under the source name, and where the
variants differ the second one carries the suffix `_v2`.

Strings model Azle `text`, `Nat` models `nat64` (the source never subtracts or
overflows: all nat64 values are timestamps or a capacity that are only created
and compared), `String` also models `Principal` (only compared for equality),
and an association list ordered by key models `StableBTreeMap` (insert,
point lookup, values in ascending key order, remove).
-/

namespace Fleet

/-- `StableBTreeMap(text, V)`: key-ordered association list.  `values()`
returns records in ascending key order, which ordered insertion maintains. -/
abbrev Store (α : Type) := List (String × α)

/-- `storage.get(id)`: point lookup. -/
def Store.get {α : Type} : Store α → String → Option α
  | [], _ => none
  | (k, v) :: rest, q => if k = q then some v else Store.get rest q

/-- `storage.insert(id, record)`: unconditional upsert keeping keys in
ascending order, so that `values()` stays key-ordered. -/
def Store.insert {α : Type} : Store α → String → α → Store α
  | [], q, v => [(q, v)]
  | (k, w) :: rest, q, v =>
    if q < k then (q, v) :: (k, w) :: rest
    else if q = k then (q, v) :: rest
    else (k, w) :: Store.insert rest q v

/-- `storage.remove(id)`. -/
def Store.remove {α : Type} (s : Store α) (q : String) : Store α :=
  s.filter (fun kv => kv.1 ≠ q)

/-- `storage.values()`: all records in key order. -/
def Store.values {α : Type} (s : Store α) : List α :=
  s.map Prod.snd

/-- `VehicleStatus` variant: `{ Available | Booked | Maintenance }`. -/
inductive VehicleStatus where
  | Available
  | Booked
  | Maintenance
deriving Repr, DecidableEq

/-- `Driver` record (`owner : Principal` modelled as a string). -/
structure Driver where
  id : String
  owner : String
  name : String
  license_number : String
  contact_info : String
  points : Nat
  created_at : Nat
deriving Repr, DecidableEq

/-- `Vehicle` record. -/
structure Vehicle where
  id : String
  registration_number : String
  model : String
  capacity : Nat
  status : VehicleStatus
  location : String
  created_at : Nat
deriving Repr, DecidableEq

/-- `Booking` record. -/
structure Booking where
  id : String
  vehicle_id : String
  driver_id : String
  from_location : String
  to_location : String
  start_time : Nat
  end_time : Nat
  status : String
  created_at : Nat
deriving Repr, DecidableEq

/-- `FuelConsumption` record (`amount` is decimal-as-string, kept verbatim). -/
structure FuelConsumption where
  id : String
  vehicle_id : String
  amount : String
  date : Nat
deriving Repr, DecidableEq

/-- `Maintenance` record. -/
structure Maintenance where
  id : String
  vehicle_id : String
  description : String
  scheduled_date : Nat
  status : String
  created_at : Nat
deriving Repr, DecidableEq

/-- `EmergencyAssistance` record. -/
structure EmergencyAssistance where
  id : String
  vehicle_id : String
  description : String
  location : String
  status : String
  created_at : Nat
deriving Repr, DecidableEq

/-- `Route` record. -/
structure Route where
  id : String
  from_location : String
  to_location : String
  optimized_route : String
  distance : String
  time_estimate : Nat
deriving Repr, DecidableEq

/-- `Message` variant: the four result tags. -/
inductive Message where
  | Success (msg : String)
  | Error (msg : String)
  | NotFound (msg : String)
  | InvalidPayload (msg : String)
deriving Repr, DecidableEq

/-- `DriverPayload`. -/
structure DriverPayload where
  name : String
  license_number : String
  contact_info : String
deriving Repr, DecidableEq

/-- `VehiclePayload`. -/
structure VehiclePayload where
  registration_number : String
  model : String
  capacity : Nat
  location : String
deriving Repr, DecidableEq

/-- `BookingPayload`. -/
structure BookingPayload where
  vehicle_id : String
  driver_id : String
  from_location : String
  to_location : String
  start_time : Nat
  end_time : Nat
deriving Repr, DecidableEq

/-- `FuelConsumptionPayload`. -/
structure FuelConsumptionPayload where
  vehicle_id : String
  amount : String
  date : Nat
deriving Repr, DecidableEq

/-- `MaintenancePayload`. -/
structure MaintenancePayload where
  vehicle_id : String
  description : String
  scheduled_date : Nat
deriving Repr, DecidableEq

/-- `EmergencyAssistancePayload`. -/
structure EmergencyAssistancePayload where
  vehicle_id : String
  description : String
  location : String
deriving Repr, DecidableEq

/-- `RoutePayload`. -/
structure RoutePayload where
  from_location : String
  to_location : String
deriving Repr, DecidableEq

/-- The seven entity stores (the canister's stable state). -/
structure FleetState where
  driverStorage : Store Driver
  vehicleStorage : Store Vehicle
  bookingStorage : Store Booking
  fuelConsumptionStorage : Store FuelConsumption
  maintenanceStorage : Store Maintenance
  emergencyAssistanceStorage : Store EmergencyAssistance
  routeStorage : Store Route
deriving Repr, DecidableEq

/-- The state with all seven stores empty. -/
def FleetState.empty : FleetState :=
  ⟨[], [], [], [], [], [], []⟩

/-- Strip leading and trailing whitespace from a character list: what JS
`String.prototype.trim` does to the string's characters. -/
def trimChars (cs : List Char) : List Char :=
  ((cs.dropWhile (fun c => c.isWhitespace)).reverse.dropWhile
    (fun c => c.isWhitespace)).reverse

/-- `validateId = (id) => id && id.trim().length > 0`: a JS string is truthy
iff non-empty, and the trimmed length must be positive (so whitespace-only
ids are invalid too). -/
def validateId (id : String) : Bool :=
  id ≠ "" && (trimChars id.toList).length > 0

/-- Value of a list of decimal digit characters. -/
def digitsToNat (ds : List Char) : Nat :=
  ds.foldl (fun acc c => acc * 10 + (c.toNat - '0'.toNat)) 0

/-- Model of the JS builtin `parseFloat` on the decimal forms that occur here:
skip leading whitespace, read an optional sign and the longest
`digits [. digits]` prefix; `none` models `NaN` (no numeric prefix at all).
The parsed number is represented exactly as a scaled integer
`(mantissa, scale)` denoting `mantissa / 10 ^ scale` (see `parsedValue`).
The exponent suffix and the `Infinity` literal are not modelled; neither
changes the sign of the parsed value, its only use here. -/
def parseFloat (s : String) : Option (Int × Nat) :=
  let cs := s.toList.dropWhile (fun c => c.isWhitespace)
  let signIsMinus : Bool :=
    match cs with
    | '-' :: _ => true
    | _ => false
  let cs1 : List Char :=
    match cs with
    | '-' :: rest => rest
    | '+' :: rest => rest
    | _ => cs
  let intPart := cs1.takeWhile (fun c => c.isDigit)
  let afterInt := cs1.dropWhile (fun c => c.isDigit)
  let fracPart : List Char :=
    match afterInt with
    | '.' :: rest => rest.takeWhile (fun c => c.isDigit)
    | _ => []
  if intPart.isEmpty && fracPart.isEmpty then none
  else
    let mag : Int := (digitsToNat intPart) * 10 ^ fracPart.length + digitsToNat fracPart
    some (if signIsMinus then -mag else mag, fracPart.length)

/-- The exact rational value denoted by a `parseFloat` result. -/
def parsedValue (p : Int × Nat) : Rat :=
  (p.1 : Rat) / (10 : Rat) ^ p.2

/-- The guard `parseFloat(payload.amount) <= 0`: in JS a comparison with `NaN`
is `false`, so a string with no numeric prefix does NOT trip the guard.  On a
parsed number the comparison is decided on the mantissa, which by
`parsedValue_nonpos` below is exactly `parsedValue p ≤ 0`. -/
def amountLeZero (s : String) : Bool :=
  match parseFloat s with
  | some p => decide (p.1 ≤ 0)
  | none => false

/-- Variant 1's availability test `vehicle.status.Available === undefined`:
the decoded variant object has `Available: null` exactly for the `Available`
tag, so the field is `undefined` (and the test true) for every other tag. -/
def statusAvailableIsUndefined : VehicleStatus → Bool
  | .Available => false
  | _ => true

/-- Variant 2's availability test `vehicle.status !== "Available"`: the status
is a decoded variant object such as `\x7b Available: null \x7d`, and a JS
object is never strictly equal to a string, so the test is true for every
status value. -/
def statusStrictNeAvailableString (_ : VehicleStatus) : Bool :=
  true

/-! ## Driver operations -/

/-- `createDriver` (identical in both variants): validate the three text
fields, stamp owner/points/created_at, insert under a fresh uuid. -/
def createDriver (st : FleetState) (caller : String) (now : Nat) (newId : String)
    (p : DriverPayload) : Except Message Driver × FleetState :=
  if p.name = "" ∨ p.license_number = "" ∨ p.contact_info = "" then
    (.error (.InvalidPayload "Missing required fields"), st)
  else
    let driver : Driver :=
      { id := newId, owner := caller, name := p.name,
        license_number := p.license_number, contact_info := p.contact_info,
        points := 0, created_at := now }
    (.ok driver, { st with driverStorage := st.driverStorage.insert newId driver })

/-- Variant 1 `getDriverById`: `validateId` guard, then point lookup. -/
def getDriverById (st : FleetState) (driverId : String) : Except Message Driver :=
  if !validateId driverId then .error (.InvalidPayload "Invalid driver ID")
  else
    match st.driverStorage.get driverId with
    | none => .error (.NotFound "Driver not found")
    | some d => .ok d

/-- Variant 2 `getDriverById`: point lookup with no id validation. -/
def getDriverById_v2 (st : FleetState) (driverId : String) : Except Message Driver :=
  match st.driverStorage.get driverId with
  | none => .error (.NotFound "Driver not found")
  | some d => .ok d

/-- `deleteDriver` (variant 1 only): validate id, check existence, remove. -/
def deleteDriver (st : FleetState) (driverId : String) :
    Except Message Message × FleetState :=
  if !validateId driverId then (.error (.InvalidPayload "Invalid driver ID"), st)
  else
    match st.driverStorage.get driverId with
    | none => (.error (.NotFound "Driver not found"), st)
    | some _ =>
      (.ok (.Success "Driver deleted successfully"),
       { st with driverStorage := st.driverStorage.remove driverId })

/-- `getDriverByLicenseNumber` (variant 1 only): filter all drivers on exact
license-number match and return `driverOpt[0]`, the FIRST match only. -/
def getDriverByLicenseNumber (st : FleetState) (licenseNumber : String) :
    Except Message Driver :=
  let driverOpt := st.driverStorage.values.filter
    (fun d => d.license_number == licenseNumber)
  match driverOpt with
  | [] => .error (.NotFound "Driver not found with this license number")
  | d :: _ => .ok d

/-! ## Vehicle operations -/

/-- Variant 1 `createVehicle`: guard
`!registration_number || !model || capacity <= 0 || !location`. -/
def createVehicle (st : FleetState) (now : Nat) (newId : String)
    (p : VehiclePayload) : Except Message Vehicle × FleetState :=
  if p.registration_number = "" ∨ p.model = "" ∨ p.capacity ≤ 0 ∨ p.location = "" then
    (.error (.InvalidPayload "Missing or invalid vehicle data"), st)
  else
    let vehicle : Vehicle :=
      { id := newId, registration_number := p.registration_number,
        model := p.model, capacity := p.capacity,
        status := .Available, location := p.location, created_at := now }
    (.ok vehicle, { st with vehicleStorage := st.vehicleStorage.insert newId vehicle })

/-- Variant 2 `createVehicle`: guard
`!registration_number || !model || !capacity || !location`
(the bigint `0n` is falsy, so `!capacity` means `capacity = 0`). -/
def createVehicle_v2 (st : FleetState) (now : Nat) (newId : String)
    (p : VehiclePayload) : Except Message Vehicle × FleetState :=
  if p.registration_number = "" ∨ p.model = "" ∨ p.capacity = 0 ∨ p.location = "" then
    (.error (.InvalidPayload "Missing required fields"), st)
  else
    let vehicle : Vehicle :=
      { id := newId, registration_number := p.registration_number,
        model := p.model, capacity := p.capacity,
        status := .Available, location := p.location, created_at := now }
    (.ok vehicle, { st with vehicleStorage := st.vehicleStorage.insert newId vehicle })

/-- Variant 1 `getVehicleById`: `validateId` guard, then point lookup. -/
def getVehicleById (st : FleetState) (vehicleId : String) : Except Message Vehicle :=
  if !validateId vehicleId then .error (.InvalidPayload "Invalid vehicle ID")
  else
    match st.vehicleStorage.get vehicleId with
    | none => .error (.NotFound "Vehicle not found")
    | some v => .ok v

/-- Variant 2 `getVehicleById`: point lookup with no id validation. -/
def getVehicleById_v2 (st : FleetState) (vehicleId : String) : Except Message Vehicle :=
  match st.vehicleStorage.get vehicleId with
  | none => .error (.NotFound "Vehicle not found")
  | some v => .ok v

/-- `getVehicleByRegistrationNumber` (same logic in both variants): filter on
exact registration-number match and return `vehicleOpt[0]`, the FIRST match. -/
def getVehicleByRegistrationNumber (st : FleetState) (registrationNumber : String) :
    Except Message Vehicle :=
  let vehicleOpt := st.vehicleStorage.values.filter
    (fun v => v.registration_number == registrationNumber)
  match vehicleOpt with
  | [] => .error (.NotFound "Vehicle not found")
  | v :: _ => .ok v

/-- `getVehicleByModel` (variant 2 only): filter on exact model match and
return the WHOLE matching sequence. -/
def getVehicleByModel (st : FleetState) (model : String) :
    Except Message (List Vehicle) :=
  let vehicleOpt := st.vehicleStorage.values.filter (fun v => v.model == model)
  if vehicleOpt.isEmpty then .error (.NotFound "Vehicle not found")
  else .ok vehicleOpt

/-- `deleteVehicle` (variant 1 only). -/
def deleteVehicle (st : FleetState) (vehicleId : String) :
    Except Message Message × FleetState :=
  if !validateId vehicleId then (.error (.InvalidPayload "Invalid vehicle ID"), st)
  else
    match st.vehicleStorage.get vehicleId with
    | none => (.error (.NotFound "Vehicle not found"), st)
    | some _ =>
      (.ok (.Success "Vehicle deleted successfully"),
       { st with vehicleStorage := st.vehicleStorage.remove vehicleId })

/-- `updateVehicleStatus` (variant 1 only): validate id, look up, overwrite
only the status field, re-insert under the same key. -/
def updateVehicleStatus (st : FleetState) (vehicleId : String)
    (status : VehicleStatus) : Except Message Message × FleetState :=
  if !validateId vehicleId then (.error (.InvalidPayload "Invalid vehicle ID"), st)
  else
    match st.vehicleStorage.get vehicleId with
    | none => (.error (.NotFound "Vehicle not found"), st)
    | some vehicle =>
      let vehicle' := { vehicle with status := status }
      (.ok (.Success "Vehicle status updated successfully"),
       { st with vehicleStorage := st.vehicleStorage.insert vehicleId vehicle' })

/-! ## Booking operations -/

/-- Variant 1 `createBooking`: validate `from_location`, `to_location`,
`start_time > ic.time()`; find the vehicle by scanning `values()` for a
matching `id` field; reject unless `status.Available !== undefined`
(availability); find the driver by scan; insert with status `"pending"`. -/
def createBooking (st : FleetState) (now : Nat) (newId : String)
    (p : BookingPayload) : Except Message Booking × FleetState :=
  if p.from_location = "" ∨ p.to_location = "" ∨ p.start_time ≤ now then
    (.error (.InvalidPayload "Invalid booking data"), st)
  else
    match st.vehicleStorage.values.filter (fun v => v.id == p.vehicle_id) with
    | [] => (.error (.NotFound "Vehicle not found"), st)
    | v :: _ =>
      if statusAvailableIsUndefined v.status then
        (.error (.Error "Vehicle is not available"), st)
      else
        match st.driverStorage.values.filter (fun d => d.id == p.driver_id) with
        | [] => (.error (.NotFound "Driver not found"), st)
        | _ :: _ =>
          let booking : Booking :=
            { id := newId, vehicle_id := p.vehicle_id, driver_id := p.driver_id,
              from_location := p.from_location, to_location := p.to_location,
              start_time := p.start_time, end_time := p.end_time,
              status := "pending", created_at := now }
          (.ok booking,
           { st with bookingStorage := st.bookingStorage.insert newId booking })

/-- Variant 2 `createBooking`: as variant 1 except the availability test is
`vehicleOpt[0].status !== "Available"`, a comparison of the decoded variant
object against a string, which always holds. -/
def createBooking_v2 (st : FleetState) (now : Nat) (newId : String)
    (p : BookingPayload) : Except Message Booking × FleetState :=
  if p.from_location = "" ∨ p.to_location = "" ∨ p.start_time ≤ now then
    (.error (.InvalidPayload "Invalid booking data"), st)
  else
    match st.vehicleStorage.values.filter (fun v => v.id == p.vehicle_id) with
    | [] => (.error (.NotFound "Vehicle not found"), st)
    | v :: _ =>
      if statusStrictNeAvailableString v.status then
        (.error (.Error "Vehicle is not available"), st)
      else
        match st.driverStorage.values.filter (fun d => d.id == p.driver_id) with
        | [] => (.error (.NotFound "Driver not found"), st)
        | _ :: _ =>
          let booking : Booking :=
            { id := newId, vehicle_id := p.vehicle_id, driver_id := p.driver_id,
              from_location := p.from_location, to_location := p.to_location,
              start_time := p.start_time, end_time := p.end_time,
              status := "pending", created_at := now }
          (.ok booking,
           { st with bookingStorage := st.bookingStorage.insert newId booking })

/-- `getBookingById` (variant 2 only): point lookup with no id validation. -/
def getBookingById (st : FleetState) (bookingId : String) : Except Message Booking :=
  match st.bookingStorage.get bookingId with
  | none => .error (.NotFound "Booking not found")
  | some b => .ok b

/-- `getBookingByVehicleId` (same logic in both variants): return the WHOLE
sequence of bookings whose `vehicle_id` field matches. -/
def getBookingByVehicleId (st : FleetState) (vehicleId : String) :
    Except Message (List Booking) :=
  let bookings := st.bookingStorage.values.filter (fun b => b.vehicle_id == vehicleId)
  if bookings.isEmpty then .error (.NotFound "No bookings found for this vehicle")
  else .ok bookings

/-- `getBookingByDriverId` (variant 2 only): return the WHOLE sequence of
bookings whose `driver_id` field matches. -/
def getBookingByDriverId (st : FleetState) (driverId : String) :
    Except Message (List Booking) :=
  let bookings := st.bookingStorage.values.filter (fun b => b.driver_id == driverId)
  if bookings.isEmpty then .error (.NotFound "No bookings found")
  else .ok bookings

/-! ## Fuel, maintenance, emergency, route operations -/

/-- Variant 1 `recordFuelConsumption`: guard `parseFloat(amount) <= 0`, then
vehicle existence by POINT LOOKUP, then insert the payload verbatim (no
created_at stamp on this record type). -/
def recordFuelConsumption (st : FleetState) (newId : String)
    (p : FuelConsumptionPayload) : Except Message FuelConsumption × FleetState :=
  if amountLeZero p.amount then
    (.error (.InvalidPayload "Amount must be greater than zero"), st)
  else
    match st.vehicleStorage.get p.vehicle_id with
    | none => (.error (.NotFound "Vehicle not found"), st)
    | some _ =>
      let fc : FuelConsumption :=
        { id := newId, vehicle_id := p.vehicle_id, amount := p.amount, date := p.date }
      (.ok fc,
       { st with fuelConsumptionStorage := st.fuelConsumptionStorage.insert newId fc })

/-- Variant 2 `recordFuelConsumption`: as variant 1 but vehicle existence by
scanning `values()` for a matching `id` field. -/
def recordFuelConsumption_v2 (st : FleetState) (newId : String)
    (p : FuelConsumptionPayload) : Except Message FuelConsumption × FleetState :=
  if amountLeZero p.amount then
    (.error (.InvalidPayload "Amount must be greater than zero"), st)
  else
    match st.vehicleStorage.values.filter (fun v => v.id == p.vehicle_id) with
    | [] => (.error (.NotFound "Vehicle not found"), st)
    | _ :: _ =>
      let fc : FuelConsumption :=
        { id := newId, vehicle_id := p.vehicle_id, amount := p.amount, date := p.date }
      (.ok fc,
       { st with fuelConsumptionStorage := st.fuelConsumptionStorage.insert newId fc })

/-- Variant 1 `scheduleMaintenance`: validate description and
`scheduled_date > ic.time()`; vehicle existence by point lookup; insert with
status `"pending"`. -/
def scheduleMaintenance (st : FleetState) (now : Nat) (newId : String)
    (p : MaintenancePayload) : Except Message Maintenance × FleetState :=
  if p.description = "" ∨ p.scheduled_date ≤ now then
    (.error (.InvalidPayload "Invalid maintenance data"), st)
  else
    match st.vehicleStorage.get p.vehicle_id with
    | none => (.error (.NotFound "Vehicle not found"), st)
    | some _ =>
      let m : Maintenance :=
        { id := newId, vehicle_id := p.vehicle_id, description := p.description,
          scheduled_date := p.scheduled_date, status := "pending", created_at := now }
      (.ok m, { st with maintenanceStorage := st.maintenanceStorage.insert newId m })

/-- Variant 2 `scheduleMaintenance`: vehicle existence by scan. -/
def scheduleMaintenance_v2 (st : FleetState) (now : Nat) (newId : String)
    (p : MaintenancePayload) : Except Message Maintenance × FleetState :=
  if p.description = "" ∨ p.scheduled_date ≤ now then
    (.error (.InvalidPayload "Invalid maintenance data"), st)
  else
    match st.vehicleStorage.values.filter (fun v => v.id == p.vehicle_id) with
    | [] => (.error (.NotFound "Vehicle not found"), st)
    | _ :: _ =>
      let m : Maintenance :=
        { id := newId, vehicle_id := p.vehicle_id, description := p.description,
          scheduled_date := p.scheduled_date, status := "pending", created_at := now }
      (.ok m, { st with maintenanceStorage := st.maintenanceStorage.insert newId m })

/-- Variant 1 `requestEmergencyAssistance`: validate description and location;
vehicle existence by point lookup; insert with status `"pending"`. -/
def requestEmergencyAssistance (st : FleetState) (now : Nat) (newId : String)
    (p : EmergencyAssistancePayload) : Except Message EmergencyAssistance × FleetState :=
  if p.description = "" ∨ p.location = "" then
    (.error (.InvalidPayload "Invalid emergency assistance data"), st)
  else
    match st.vehicleStorage.get p.vehicle_id with
    | none => (.error (.NotFound "Vehicle not found"), st)
    | some _ =>
      let e : EmergencyAssistance :=
        { id := newId, vehicle_id := p.vehicle_id, description := p.description,
          location := p.location, status := "pending", created_at := now }
      (.ok e,
       { st with emergencyAssistanceStorage :=
          st.emergencyAssistanceStorage.insert newId e })

/-- Variant 2 `requestEmergencyAssistance`: vehicle existence by scan. -/
def requestEmergencyAssistance_v2 (st : FleetState) (now : Nat) (newId : String)
    (p : EmergencyAssistancePayload) : Except Message EmergencyAssistance × FleetState :=
  if p.description = "" ∨ p.location = "" then
    (.error (.InvalidPayload "Invalid emergency assistance data"), st)
  else
    match st.vehicleStorage.values.filter (fun v => v.id == p.vehicle_id) with
    | [] => (.error (.NotFound "Vehicle not found"), st)
    | _ :: _ =>
      let e : EmergencyAssistance :=
        { id := newId, vehicle_id := p.vehicle_id, description := p.description,
          location := p.location, status := "pending", created_at := now }
      (.ok e,
       { st with emergencyAssistanceStorage :=
          st.emergencyAssistanceStorage.insert newId e })

/-- `createRoute` (identical in both variants): validate the two locations,
store the placeholder optimized-route string, constant distance and time. -/
def createRoute (st : FleetState) (newId : String)
    (p : RoutePayload) : Except Message Route × FleetState :=
  if p.from_location = "" ∨ p.to_location = "" then
    (.error (.InvalidPayload "Invalid route data"), st)
  else
    let route : Route :=
      { id := newId, from_location := p.from_location, to_location := p.to_location,
        optimized_route :=
          "Optimized route from " ++ p.from_location ++ " to " ++ p.to_location,
        distance := "100km", time_estimate := 3600 }
    (.ok route, { st with routeStorage := st.routeStorage.insert newId route })

/-- `getRouteById` (variant 2 only): point lookup with no id validation. -/
def getRouteById (st : FleetState) (routeId : String) : Except Message Route :=
  match st.routeStorage.get routeId with
  | none => .error (.NotFound "Route not found")
  | some r => .ok r

/-! ## The update surface as one step relation

Every state-mutating entry point from both variants, bundled so that frame
properties can quantify over the whole surface.  The query entry points are
`query` methods: they are pure reads of the state (their embeddings above
never return a state), so they mutate nothing by construction. -/

/-- One call to a state-mutating entry point, with its non-deterministic
environment inputs (`ic.caller()`, `ic.time()`, the fresh uuid) made
explicit. -/
inductive UpdateCall where
  | doCreateDriver (caller : String) (now : Nat) (newId : String) (p : DriverPayload)
  | doDeleteDriver (driverId : String)
  | doCreateVehicle (now : Nat) (newId : String) (p : VehiclePayload)
  | doCreateVehicle_v2 (now : Nat) (newId : String) (p : VehiclePayload)
  | doDeleteVehicle (vehicleId : String)
  | doUpdateVehicleStatus (vehicleId : String) (status : VehicleStatus)
  | doCreateBooking (now : Nat) (newId : String) (p : BookingPayload)
  | doCreateBooking_v2 (now : Nat) (newId : String) (p : BookingPayload)
  | doRecordFuelConsumption (newId : String) (p : FuelConsumptionPayload)
  | doRecordFuelConsumption_v2 (newId : String) (p : FuelConsumptionPayload)
  | doScheduleMaintenance (now : Nat) (newId : String) (p : MaintenancePayload)
  | doScheduleMaintenance_v2 (now : Nat) (newId : String) (p : MaintenancePayload)
  | doRequestEmergencyAssistance (now : Nat) (newId : String) (p : EmergencyAssistancePayload)
  | doRequestEmergencyAssistance_v2 (now : Nat) (newId : String) (p : EmergencyAssistancePayload)
  | doCreateRoute (newId : String) (p : RoutePayload)
deriving Repr, DecidableEq

/-- Whether an entry point's result is the error variant (`Err` in the
source). -/
def isErr {α : Type} : Except Message α → Bool
  | .error _ => true
  | .ok _ => false

/-- Run one update call: the error flag of the returned result, and the new
state. -/
def runUpdate (st : FleetState) : UpdateCall → Bool × FleetState
  | .doCreateDriver caller now newId p =>
      let r := createDriver st caller now newId p
      (isErr r.1, r.2)
  | .doDeleteDriver driverId =>
      let r := deleteDriver st driverId
      (isErr r.1, r.2)
  | .doCreateVehicle now newId p =>
      let r := createVehicle st now newId p
      (isErr r.1, r.2)
  | .doCreateVehicle_v2 now newId p =>
      let r := createVehicle_v2 st now newId p
      (isErr r.1, r.2)
  | .doDeleteVehicle vehicleId =>
      let r := deleteVehicle st vehicleId
      (isErr r.1, r.2)
  | .doUpdateVehicleStatus vehicleId status =>
      let r := updateVehicleStatus st vehicleId status
      (isErr r.1, r.2)
  | .doCreateBooking now newId p =>
      let r := createBooking st now newId p
      (isErr r.1, r.2)
  | .doCreateBooking_v2 now newId p =>
      let r := createBooking_v2 st now newId p
      (isErr r.1, r.2)
  | .doRecordFuelConsumption newId p =>
      let r := recordFuelConsumption st newId p
      (isErr r.1, r.2)
  | .doRecordFuelConsumption_v2 newId p =>
      let r := recordFuelConsumption_v2 st newId p
      (isErr r.1, r.2)
  | .doScheduleMaintenance now newId p =>
      let r := scheduleMaintenance st now newId p
      (isErr r.1, r.2)
  | .doScheduleMaintenance_v2 now newId p =>
      let r := scheduleMaintenance_v2 st now newId p
      (isErr r.1, r.2)
  | .doRequestEmergencyAssistance now newId p =>
      let r := requestEmergencyAssistance st now newId p
      (isErr r.1, r.2)
  | .doRequestEmergencyAssistance_v2 now newId p =>
      let r := requestEmergencyAssistance_v2 st now newId p
      (isErr r.1, r.2)
  | .doCreateRoute newId p =>
      let r := createRoute st newId p
      (isErr r.1, r.2)

/-- The calls that dispatch to `createVehicle`, `createVehicle_v2`,
`deleteVehicle` or `updateVehicleStatus` — the only handlers whose code
writes to `vehicleStorage`. -/
def isVehicleWriter : UpdateCall → Bool
  | .doCreateVehicle _ _ _ => true
  | .doCreateVehicle_v2 _ _ _ => true
  | .doDeleteVehicle _ => true
  | .doUpdateVehicleStatus _ _ => true
  | _ => false

/-! ## Concrete fixtures for witnesses and counterexamples -/

/-- An Available vehicle stored under its own id. -/
def sampleVehicle : Vehicle :=
  { id := "veh-1", registration_number := "ABC-1", model := "ModelX", capacity := 4,
    status := .Available, location := "Depot", created_at := 100 }

/-- A stored driver. -/
def sampleDriver : Driver :=
  { id := "drv-1", owner := "alice", name := "Dana", license_number := "L-7",
    contact_info := "dana at example", points := 0, created_at := 100 }

/-- State holding `sampleDriver` and the Available `sampleVehicle`. -/
def baseState : FleetState :=
  { FleetState.empty with
    driverStorage := [("drv-1", sampleDriver)],
    vehicleStorage := [("veh-1", sampleVehicle)] }

/-- A booking payload referencing `sampleVehicle` and `sampleDriver`. -/
def samplePayload : BookingPayload :=
  { vehicle_id := "veh-1", driver_id := "drv-1", from_location := "Depot",
    to_location := "Town", start_time := 2000, end_time := 3000 }

/-- The booking record variant 1 creates from `samplePayload` at time 1000
with fresh id `"bk-1"`. -/
def sampleBooking : Booking :=
  { id := "bk-1", vehicle_id := "veh-1", driver_id := "drv-1",
    from_location := "Depot", to_location := "Town", start_time := 2000,
    end_time := 3000, status := "pending", created_at := 1000 }

/-- A vehicle whose status is Booked (not Available). -/
def bookedVehicle : Vehicle :=
  { id := "veh-2", registration_number := "XYZ-9", model := "ModelY", capacity := 2,
    status := .Booked, location := "Yard", created_at := 100 }

/-- State holding `sampleDriver` and the Booked `bookedVehicle`. -/
def bookedOnlyState : FleetState :=
  { FleetState.empty with
    driverStorage := [("drv-1", sampleDriver)],
    vehicleStorage := [("veh-2", bookedVehicle)] }

/-- A booking payload referencing the Booked `bookedVehicle`. -/
def bookedPayload : BookingPayload :=
  { vehicle_id := "veh-2", driver_id := "drv-1", from_location := "Depot",
    to_location := "Town", start_time := 2000, end_time := 3000 }

/-- First of two drivers sharing license number `"L-7"`. -/
def driverA : Driver :=
  { id := "drv-a", owner := "alice", name := "Ann", license_number := "L-7",
    contact_info := "ann at example", points := 0, created_at := 100 }

/-- Second of two drivers sharing license number `"L-7"`. -/
def driverB : Driver :=
  { id := "drv-b", owner := "bob", name := "Ben", license_number := "L-7",
    contact_info := "ben at example", points := 0, created_at := 100 }

/-- State holding the two drivers with equal license numbers. -/
def twoDriverState : FleetState :=
  { FleetState.empty with driverStorage := [("drv-a", driverA), ("drv-b", driverB)] }

/-- A stored route. -/
def sampleRoute : Route :=
  { id := "rt-1", from_location := "A", to_location := "B",
    optimized_route := "Optimized route from A to B", distance := "100km",
    time_estimate := 3600 }

/-- State holding only `sampleRoute`. -/
def routeOnlyState : FleetState :=
  { FleetState.empty with routeStorage := [("rt-1", sampleRoute)] }

/-! ## Helper lemmas -/

/-- The mantissa test used by `amountLeZero` agrees with the sign of the exact
parsed value: `mantissa / 10 ^ scale ≤ 0` iff `mantissa ≤ 0`. -/
theorem parsedValue_nonpos (m : Int) (k : Nat) :
    parsedValue (m, k) ≤ 0 ↔ m ≤ 0 := by
  have hpow : (0:Rat) < (10:Rat) ^ k := by positivity
  unfold parsedValue
  simp only
  rw [div_nonpos_iff]
  constructor
  · rintro (⟨h1, h2⟩ | ⟨h1, h2⟩)
    · exact absurd h2 (not_le.mpr hpow)
    · exact_mod_cast h1
  · intro h
    right
    exact ⟨by exact_mod_cast h, le_of_lt hpow⟩

theorem Store.get_insert_self {α : Type} (s : Store α) (k : String) (v : α) :
    (Store.insert s k v).get k = some v := by
  induction s with
  | nil => simp [Store.insert, Store.get]
  | cons kv rest ih =>
    obtain ⟨k', w⟩ := kv
    unfold Store.insert
    by_cases h1 : k < k'
    · simp [h1, Store.get]
    · by_cases h2 : k = k'
      · simp [h1, h2, Store.get]
      · simp [h1, h2, Store.get, Ne.symm h2, ih]

theorem Store.get_insert_ne {α : Type} (s : Store α) (k q : String) (v : α)
    (h : q ≠ k) : (Store.insert s k v).get q = s.get q := by
  induction s with
  | nil => simp [Store.insert, Store.get, Ne.symm h]
  | cons kv rest ih =>
    obtain ⟨k', w⟩ := kv
    unfold Store.insert
    by_cases h1 : k < k'
    · simp [h1, Store.get, Ne.symm h]
    · by_cases h2 : k = k'
      · subst h2
        simp [h1, Store.get, Ne.symm h]
      · by_cases h3 : k' = q
        · subst h3
          simp [h1, h2, Store.get]
        · simp [h1, h2, Store.get, h3, ih]

/-! Error results leave the state unchanged: one lemma per mutating handler. -/

theorem createDriver_err_frame (st : FleetState) (caller : String) (now : Nat)
    (newId : String) (p : DriverPayload) :
    isErr (createDriver st caller now newId p).1 = true →
    (createDriver st caller now newId p).2 = st := by
  unfold createDriver
  (repeat' split) <;> simp_all [isErr]

theorem deleteDriver_err_frame (st : FleetState) (driverId : String) :
    isErr (deleteDriver st driverId).1 = true → (deleteDriver st driverId).2 = st := by
  unfold deleteDriver
  (repeat' split) <;> simp_all [isErr]

theorem createVehicle_err_frame (st : FleetState) (now : Nat) (newId : String)
    (p : VehiclePayload) :
    isErr (createVehicle st now newId p).1 = true →
    (createVehicle st now newId p).2 = st := by
  unfold createVehicle
  (repeat' split) <;> simp_all [isErr]

theorem createVehicle_v2_err_frame (st : FleetState) (now : Nat) (newId : String)
    (p : VehiclePayload) :
    isErr (createVehicle_v2 st now newId p).1 = true →
    (createVehicle_v2 st now newId p).2 = st := by
  unfold createVehicle_v2
  (repeat' split) <;> simp_all [isErr]

theorem deleteVehicle_err_frame (st : FleetState) (vehicleId : String) :
    isErr (deleteVehicle st vehicleId).1 = true → (deleteVehicle st vehicleId).2 = st := by
  unfold deleteVehicle
  (repeat' split) <;> simp_all [isErr]

theorem updateVehicleStatus_err_frame (st : FleetState) (vehicleId : String)
    (status : VehicleStatus) :
    isErr (updateVehicleStatus st vehicleId status).1 = true →
    (updateVehicleStatus st vehicleId status).2 = st := by
  unfold updateVehicleStatus
  (repeat' split) <;> simp_all [isErr]

theorem createBooking_err_frame (st : FleetState) (now : Nat) (newId : String)
    (p : BookingPayload) :
    isErr (createBooking st now newId p).1 = true →
    (createBooking st now newId p).2 = st := by
  unfold createBooking
  (repeat' split) <;> simp_all [isErr]

theorem createBooking_v2_err_frame (st : FleetState) (now : Nat) (newId : String)
    (p : BookingPayload) :
    isErr (createBooking_v2 st now newId p).1 = true →
    (createBooking_v2 st now newId p).2 = st := by
  unfold createBooking_v2
  (repeat' split) <;> simp_all [isErr]

theorem recordFuelConsumption_err_frame (st : FleetState) (newId : String)
    (p : FuelConsumptionPayload) :
    isErr (recordFuelConsumption st newId p).1 = true →
    (recordFuelConsumption st newId p).2 = st := by
  unfold recordFuelConsumption
  (repeat' split) <;> simp_all [isErr]

theorem recordFuelConsumption_v2_err_frame (st : FleetState) (newId : String)
    (p : FuelConsumptionPayload) :
    isErr (recordFuelConsumption_v2 st newId p).1 = true →
    (recordFuelConsumption_v2 st newId p).2 = st := by
  unfold recordFuelConsumption_v2
  (repeat' split) <;> simp_all [isErr]

theorem scheduleMaintenance_err_frame (st : FleetState) (now : Nat) (newId : String)
    (p : MaintenancePayload) :
    isErr (scheduleMaintenance st now newId p).1 = true →
    (scheduleMaintenance st now newId p).2 = st := by
  unfold scheduleMaintenance
  (repeat' split) <;> simp_all [isErr]

theorem scheduleMaintenance_v2_err_frame (st : FleetState) (now : Nat) (newId : String)
    (p : MaintenancePayload) :
    isErr (scheduleMaintenance_v2 st now newId p).1 = true →
    (scheduleMaintenance_v2 st now newId p).2 = st := by
  unfold scheduleMaintenance_v2
  (repeat' split) <;> simp_all [isErr]

theorem requestEmergencyAssistance_err_frame (st : FleetState) (now : Nat)
    (newId : String) (p : EmergencyAssistancePayload) :
    isErr (requestEmergencyAssistance st now newId p).1 = true →
    (requestEmergencyAssistance st now newId p).2 = st := by
  unfold requestEmergencyAssistance
  (repeat' split) <;> simp_all [isErr]

theorem requestEmergencyAssistance_v2_err_frame (st : FleetState) (now : Nat)
    (newId : String) (p : EmergencyAssistancePayload) :
    isErr (requestEmergencyAssistance_v2 st now newId p).1 = true →
    (requestEmergencyAssistance_v2 st now newId p).2 = st := by
  unfold requestEmergencyAssistance_v2
  (repeat' split) <;> simp_all [isErr]

theorem createRoute_err_frame (st : FleetState) (newId : String) (p : RoutePayload) :
    isErr (createRoute st newId p).1 = true → (createRoute st newId p).2 = st := by
  unfold createRoute
  (repeat' split) <;> simp_all [isErr]

/-! `vehicleStorage` is untouched by every handler that does not write it. -/

theorem createDriver_keeps_vehicleStorage (st : FleetState) (caller : String)
    (now : Nat) (newId : String) (p : DriverPayload) :
    (createDriver st caller now newId p).2.vehicleStorage = st.vehicleStorage := by
  unfold createDriver
  (repeat' split) <;> rfl

theorem deleteDriver_keeps_vehicleStorage (st : FleetState) (driverId : String) :
    (deleteDriver st driverId).2.vehicleStorage = st.vehicleStorage := by
  unfold deleteDriver
  (repeat' split) <;> rfl

theorem createBooking_keeps_vehicleStorage (st : FleetState) (now : Nat)
    (newId : String) (p : BookingPayload) :
    (createBooking st now newId p).2.vehicleStorage = st.vehicleStorage := by
  unfold createBooking
  (repeat' split) <;> rfl

theorem createBooking_v2_keeps_vehicleStorage (st : FleetState) (now : Nat)
    (newId : String) (p : BookingPayload) :
    (createBooking_v2 st now newId p).2.vehicleStorage = st.vehicleStorage := by
  unfold createBooking_v2
  (repeat' split) <;> rfl

theorem recordFuelConsumption_keeps_vehicleStorage (st : FleetState)
    (newId : String) (p : FuelConsumptionPayload) :
    (recordFuelConsumption st newId p).2.vehicleStorage = st.vehicleStorage := by
  unfold recordFuelConsumption
  (repeat' split) <;> rfl

theorem recordFuelConsumption_v2_keeps_vehicleStorage (st : FleetState)
    (newId : String) (p : FuelConsumptionPayload) :
    (recordFuelConsumption_v2 st newId p).2.vehicleStorage = st.vehicleStorage := by
  unfold recordFuelConsumption_v2
  (repeat' split) <;> rfl

theorem scheduleMaintenance_keeps_vehicleStorage (st : FleetState) (now : Nat)
    (newId : String) (p : MaintenancePayload) :
    (scheduleMaintenance st now newId p).2.vehicleStorage = st.vehicleStorage := by
  unfold scheduleMaintenance
  (repeat' split) <;> rfl

theorem scheduleMaintenance_v2_keeps_vehicleStorage (st : FleetState) (now : Nat)
    (newId : String) (p : MaintenancePayload) :
    (scheduleMaintenance_v2 st now newId p).2.vehicleStorage = st.vehicleStorage := by
  unfold scheduleMaintenance_v2
  (repeat' split) <;> rfl

theorem requestEmergencyAssistance_keeps_vehicleStorage (st : FleetState)
    (now : Nat) (newId : String) (p : EmergencyAssistancePayload) :
    (requestEmergencyAssistance st now newId p).2.vehicleStorage = st.vehicleStorage := by
  unfold requestEmergencyAssistance
  (repeat' split) <;> rfl

theorem requestEmergencyAssistance_v2_keeps_vehicleStorage (st : FleetState)
    (now : Nat) (newId : String) (p : EmergencyAssistancePayload) :
    (requestEmergencyAssistance_v2 st now newId p).2.vehicleStorage = st.vehicleStorage := by
  unfold requestEmergencyAssistance_v2
  (repeat' split) <;> rfl

theorem createRoute_keeps_vehicleStorage (st : FleetState) (newId : String)
    (p : RoutePayload) :
    (createRoute st newId p).2.vehicleStorage = st.vehicleStorage := by
  unfold createRoute
  (repeat' split) <;> rfl

end Fleet
namespace Fleet

/-- C1: `recordFuelConsumption` (both variants) evaluated at concrete inputs
against a store holding the Available vehicle `"veh-1"`: amount `"0"` is
rejected as InvalidPayload and amount `"5.5"` yields a record with the amount
unchanged, as claimed; but the non-numeric amount `"abc"` is NOT rejected —
`parseFloat` gives NaN, the JS comparison `NaN <= 0` is false, and a record
with amount `"abc"` is created, contradicting the claim. -/
theorem claim1_fuel_amount_guard_evaluation :
    (recordFuelConsumption baseState "fc-1" ⟨"veh-1", "abc", 5⟩).1 =
      .ok ⟨"fc-1", "veh-1", "abc", 5⟩ ∧
    (recordFuelConsumption_v2 baseState "fc-1" ⟨"veh-1", "abc", 5⟩).1 =
      .ok ⟨"fc-1", "veh-1", "abc", 5⟩ ∧
    (recordFuelConsumption baseState "fc-1" ⟨"veh-1", "0", 5⟩).1 =
      .error (.InvalidPayload "Amount must be greater than zero") ∧
    (recordFuelConsumption_v2 baseState "fc-1" ⟨"veh-1", "0", 5⟩).1 =
      .error (.InvalidPayload "Amount must be greater than zero") ∧
    (recordFuelConsumption baseState "fc-1" ⟨"veh-1", "5.5", 5⟩).1 =
      .ok ⟨"fc-1", "veh-1", "5.5", 5⟩ ∧
    (recordFuelConsumption_v2 baseState "fc-1" ⟨"veh-1", "5.5", 5⟩).1 =
      .ok ⟨"fc-1", "veh-1", "5.5", 5⟩ :=
  ⟨rfl, rfl, rfl, rfl, rfl, rfl⟩

/-- C2: the spec scenario evaluated concretely.  Variant 1 behaves as claimed:
with the Available vehicle `"veh-1"`, stored driver `"drv-1"`, non-empty
locations and `start_time = 2000 >` current time `1000`, `createBooking`
returns the booking with status `"pending"`, and `getBookingByVehicleId`
then returns the one-element sequence holding it.  Variant 2 returns
`Error "Vehicle is not available"` on the very same input and state — its
availability test compares the status variant object against the string
`"Available"`, which never holds — so no booking can ever be created there. -/
theorem claim2_booking_scenario_evaluation :
    (createBooking baseState 1000 "bk-1" samplePayload).1 = .ok sampleBooking ∧
    getBookingByVehicleId (createBooking baseState 1000 "bk-1" samplePayload).2 "veh-1" =
      .ok [sampleBooking] ∧
    (createBooking_v2 baseState 1000 "bk-1" samplePayload).1 =
      .error (.Error "Vehicle is not available") ∧
    (createBooking_v2 baseState 1000 "bk-1" samplePayload).2 = baseState :=
  ⟨rfl, rfl, rfl, rfl⟩

/-- C3: a field-valid booking payload whose vehicle lookup finds a vehicle
that is not Available makes `createBooking` (both variants) return the
generic `Error`, insert nothing, and leave every store — in particular the
vehicle's record — unchanged. -/
theorem claim3_booking_unavailable_vehicle (st : FleetState) (now : Nat)
    (newId : String) (p : BookingPayload) (v : Vehicle) (rest : List Vehicle)
    (hfrom : p.from_location ≠ "") (hto : p.to_location ≠ "")
    (hstart : now < p.start_time)
    (hfil : st.vehicleStorage.values.filter (fun w => w.id == p.vehicle_id) = v :: rest)
    (hv : v.status ≠ .Available) :
    (createBooking st now newId p).1 = .error (.Error "Vehicle is not available") ∧
    (createBooking st now newId p).2 = st ∧
    (createBooking_v2 st now newId p).1 = .error (.Error "Vehicle is not available") ∧
    (createBooking_v2 st now newId p).2 = st := by
  have hcond : ¬(p.from_location = "" ∨ p.to_location = "" ∨ p.start_time ≤ now) := by
    push_neg
    exact ⟨hfrom, hto, hstart⟩
  have hst : statusAvailableIsUndefined v.status = true := by
    cases hs : v.status with
    | Available => exact absurd hs hv
    | Booked => rfl
    | Maintenance => rfl
  refine ⟨?_, ?_, ?_, ?_⟩
  · unfold createBooking
    rw [if_neg hcond, hfil]
    simp [hst]
  · unfold createBooking
    rw [if_neg hcond, hfil]
    simp [hst]
  · unfold createBooking_v2
    rw [if_neg hcond, hfil]
    simp [statusStrictNeAvailableString]
  · unfold createBooking_v2
    rw [if_neg hcond, hfil]
    simp [statusStrictNeAvailableString]

/-- Witness for C3 at a concrete state holding the Booked vehicle `"veh-2"`. -/
theorem claim3_witness :
    (createBooking bookedOnlyState 1000 "bk-9" bookedPayload).1 =
      .error (.Error "Vehicle is not available") ∧
    (createBooking bookedOnlyState 1000 "bk-9" bookedPayload).2 = bookedOnlyState := by
  have h := claim3_booking_unavailable_vehicle bookedOnlyState 1000 "bk-9" bookedPayload
    bookedVehicle [] (by decide) (by decide) (by decide) (by rfl) (by decide)
  exact ⟨h.1, h.2.1⟩

end Fleet
namespace Fleet

/-- C4 counterexample: with two stored drivers both holding license number
`"L-7"`, the filter matches both, yet `getDriverByLicenseNumber` returns only
the FIRST matching record (its result type is a single `Driver`), not the
full sequence of all matching records the claim demands. -/
theorem claim4_first_match_only_counterexample :
    twoDriverState.driverStorage.values.filter
      (fun d => d.license_number == "L-7") = [driverA, driverB] ∧
    getDriverByLicenseNumber twoDriverState "L-7" = .ok driverA ∧
    driverA ≠ driverB :=
  ⟨rfl, rfl, by decide⟩

/-- C4 (amended): `getVehicleByModel`, `getBookingByVehicleId` and
`getBookingByDriverId` do return the full sequence of matching records and
`NotFound` exactly when no record matches; but `getDriverByLicenseNumber`
and `getVehicleByRegistrationNumber` return only the FIRST matching record
(still `NotFound` exactly when no record matches). -/
theorem claim4_filter_amended :
    (∀ (st : FleetState) (lic : String),
      (∀ (d : Driver) (rest : List Driver),
        st.driverStorage.values.filter (fun x => x.license_number == lic) = d :: rest →
        getDriverByLicenseNumber st lic = .ok d) ∧
      (getDriverByLicenseNumber st lic =
          .error (.NotFound "Driver not found with this license number") ↔
        st.driverStorage.values.filter (fun x => x.license_number == lic) = [])) ∧
    (∀ (st : FleetState) (reg : String),
      (∀ (v : Vehicle) (rest : List Vehicle),
        st.vehicleStorage.values.filter (fun x => x.registration_number == reg) = v :: rest →
        getVehicleByRegistrationNumber st reg = .ok v) ∧
      (getVehicleByRegistrationNumber st reg = .error (.NotFound "Vehicle not found") ↔
        st.vehicleStorage.values.filter (fun x => x.registration_number == reg) = [])) ∧
    (∀ (st : FleetState) (m : String),
      (st.vehicleStorage.values.filter (fun x => x.model == m) ≠ [] →
        getVehicleByModel st m = .ok (st.vehicleStorage.values.filter (fun x => x.model == m))) ∧
      (getVehicleByModel st m = .error (.NotFound "Vehicle not found") ↔
        st.vehicleStorage.values.filter (fun x => x.model == m) = [])) ∧
    (∀ (st : FleetState) (vid : String),
      (st.bookingStorage.values.filter (fun x => x.vehicle_id == vid) ≠ [] →
        getBookingByVehicleId st vid =
          .ok (st.bookingStorage.values.filter (fun x => x.vehicle_id == vid))) ∧
      (getBookingByVehicleId st vid =
          .error (.NotFound "No bookings found for this vehicle") ↔
        st.bookingStorage.values.filter (fun x => x.vehicle_id == vid) = [])) ∧
    (∀ (st : FleetState) (did : String),
      (st.bookingStorage.values.filter (fun x => x.driver_id == did) ≠ [] →
        getBookingByDriverId st did =
          .ok (st.bookingStorage.values.filter (fun x => x.driver_id == did))) ∧
      (getBookingByDriverId st did = .error (.NotFound "No bookings found") ↔
        st.bookingStorage.values.filter (fun x => x.driver_id == did) = [])) := by
  refine ⟨fun st lic => ⟨?_, ?_⟩, fun st reg => ⟨?_, ?_⟩, fun st m => ⟨?_, ?_⟩,
    fun st vid => ⟨?_, ?_⟩, fun st did => ⟨?_, ?_⟩⟩
  · intro d rest h
    unfold getDriverByLicenseNumber
    rw [h]
  · unfold getDriverByLicenseNumber
    cases hf : st.driverStorage.values.filter (fun x => x.license_number == lic) <;> simp [hf]
  · intro v rest h
    unfold getVehicleByRegistrationNumber
    rw [h]
  · unfold getVehicleByRegistrationNumber
    cases hf : st.vehicleStorage.values.filter (fun x => x.registration_number == reg) <;> simp [hf]
  · intro h
    unfold getVehicleByModel
    simp [List.isEmpty_iff, h]
  · unfold getVehicleByModel
    cases hf : st.vehicleStorage.values.filter (fun x => x.model == m) <;> simp [hf, List.isEmpty_iff]
  · intro h
    unfold getBookingByVehicleId
    simp [List.isEmpty_iff, h]
  · unfold getBookingByVehicleId
    cases hf : st.bookingStorage.values.filter (fun x => x.vehicle_id == vid) <;> simp [hf, List.isEmpty_iff]
  · intro h
    unfold getBookingByDriverId
    simp [List.isEmpty_iff, h]
  · unfold getBookingByDriverId
    cases hf : st.bookingStorage.values.filter (fun x => x.driver_id == did) <;> simp [hf, List.isEmpty_iff]

/-- Witness for C4 (amended) at the two-driver state: the head-only return of
`getDriverByLicenseNumber` and the emptiness iff, instantiated concretely. -/
theorem claim4_witness :
    getDriverByLicenseNumber twoDriverState "L-7" = .ok driverA ∧
    (getDriverByLicenseNumber twoDriverState "none" =
      .error (.NotFound "Driver not found with this license number")) :=
  ⟨(claim4_filter_amended.1 twoDriverState "L-7").1 driverA [driverB] rfl,
   (claim4_filter_amended.1 twoDriverState "none").2.mpr rfl⟩

end Fleet
namespace Fleet

/-- C5 counterexample: the empty id `""` given to variant 2's get-by-id
operations is not rejected as `InvalidPayload` — these handlers have no
`validateId` guard, so the absent empty id falls through to `NotFound`. -/
theorem claim5_empty_id_notfound_counterexample :
    getRouteById FleetState.empty "" = .error (.NotFound "Route not found") ∧
    getBookingById FleetState.empty "" = .error (.NotFound "Booking not found") ∧
    getDriverById_v2 FleetState.empty " " = .error (.NotFound "Driver not found") ∧
    getVehicleById_v2 FleetState.empty " " = .error (.NotFound "Vehicle not found") :=
  ⟨rfl, rfl, rfl, rfl⟩

/-- C5 (amended): variant 1's `getDriverById`/`getVehicleById` reject an
empty or whitespace-only id as `InvalidPayload`, and for a validated id
return `NotFound` when absent and the stored record when present; variant
2's get-by-id operations (`getDriverById`, `getVehicleById`, `getBookingById`,
`getRouteById`) perform no id validation at all — any absent id, the empty
string included, yields `NotFound`, and any present id yields the record. -/
theorem claim5_get_by_id_amended :
    (∀ (st : FleetState) (id : String), validateId id = false →
      getDriverById st id = .error (.InvalidPayload "Invalid driver ID") ∧
      getVehicleById st id = .error (.InvalidPayload "Invalid vehicle ID")) ∧
    (∀ (st : FleetState) (id : String), validateId id = true →
      (st.driverStorage.get id = none →
        getDriverById st id = .error (.NotFound "Driver not found")) ∧
      (∀ d, st.driverStorage.get id = some d → getDriverById st id = .ok d) ∧
      (st.vehicleStorage.get id = none →
        getVehicleById st id = .error (.NotFound "Vehicle not found")) ∧
      (∀ v, st.vehicleStorage.get id = some v → getVehicleById st id = .ok v)) ∧
    (∀ (st : FleetState) (id : String),
      (st.driverStorage.get id = none →
        getDriverById_v2 st id = .error (.NotFound "Driver not found")) ∧
      (∀ d, st.driverStorage.get id = some d → getDriverById_v2 st id = .ok d) ∧
      (st.vehicleStorage.get id = none →
        getVehicleById_v2 st id = .error (.NotFound "Vehicle not found")) ∧
      (∀ v, st.vehicleStorage.get id = some v → getVehicleById_v2 st id = .ok v) ∧
      (st.bookingStorage.get id = none →
        getBookingById st id = .error (.NotFound "Booking not found")) ∧
      (∀ b, st.bookingStorage.get id = some b → getBookingById st id = .ok b) ∧
      (st.routeStorage.get id = none →
        getRouteById st id = .error (.NotFound "Route not found")) ∧
      (∀ r, st.routeStorage.get id = some r → getRouteById st id = .ok r)) := by
  refine ⟨fun st id h => ⟨?_, ?_⟩, fun st id h => ⟨?_, fun d hd => ?_, ?_, fun v hv => ?_⟩,
    fun st id => ⟨?_, fun d hd => ?_, ?_, fun v hv => ?_, ?_, fun b hb => ?_, ?_, fun r hr => ?_⟩⟩
  · unfold getDriverById
    simp [h]
  · unfold getVehicleById
    simp [h]
  · intro hn
    unfold getDriverById
    simp [h, hn]
  · unfold getDriverById
    simp [h, hd]
  · intro hn
    unfold getVehicleById
    simp [h, hn]
  · unfold getVehicleById
    simp [h, hv]
  · intro hn
    unfold getDriverById_v2
    simp [hn]
  · unfold getDriverById_v2
    simp [hd]
  · intro hn
    unfold getVehicleById_v2
    simp [hn]
  · unfold getVehicleById_v2
    simp [hv]
  · intro hn
    unfold getBookingById
    simp [hn]
  · unfold getBookingById
    simp [hb]
  · intro hn
    unfold getRouteById
    simp [hn]
  · unfold getRouteById
    simp [hr]

/-- Witness for C5 (amended): instantiated at concrete ids and states —
the whitespace id on variant 1, a present driver, and a present route. -/
theorem claim5_witness :
    getDriverById baseState " " = .error (.InvalidPayload "Invalid driver ID") ∧
    getDriverById baseState "drv-1" = .ok sampleDriver ∧
    getRouteById routeOnlyState "rt-1" = .ok sampleRoute :=
  ⟨(claim5_get_by_id_amended.1 baseState " " rfl).1,
   (claim5_get_by_id_amended.2.1 baseState "drv-1" rfl).2.1 sampleDriver rfl,
   (claim5_get_by_id_amended.2.2 routeOnlyState "rt-1").2.2.2.2.2.2.2 sampleRoute rfl⟩

/-- C6 counterexample: each create operation that references a vehicle,
given a payload whose reference fields are EMPTY but whose other required
fields are valid, is not rejected as `InvalidPayload`: the store lookup runs
and all of them — `createBooking` with empty `vehicle_id` and `driver_id`,
`recordFuelConsumption` with empty `vehicle_id` AND empty `amount`
(`parseFloat("")` is NaN, so the guard passes), `scheduleMaintenance` and
`requestEmergencyAssistance` with empty `vehicle_id` — return `NotFound`,
in both variants. -/
theorem claim6_empty_reference_counterexample :
    (createBooking FleetState.empty 0 "bk-1" ⟨"", "", "A", "B", 10, 20⟩).1 =
      .error (.NotFound "Vehicle not found") ∧
    (createBooking_v2 FleetState.empty 0 "bk-1" ⟨"", "", "A", "B", 10, 20⟩).1 =
      .error (.NotFound "Vehicle not found") ∧
    (recordFuelConsumption FleetState.empty "fc-1" ⟨"", "", 5⟩).1 =
      .error (.NotFound "Vehicle not found") ∧
    (recordFuelConsumption_v2 FleetState.empty "fc-1" ⟨"", "", 5⟩).1 =
      .error (.NotFound "Vehicle not found") ∧
    (scheduleMaintenance FleetState.empty 0 "m-1" ⟨"", "oil change", 10⟩).1 =
      .error (.NotFound "Vehicle not found") ∧
    (scheduleMaintenance_v2 FleetState.empty 0 "m-1" ⟨"", "oil change", 10⟩).1 =
      .error (.NotFound "Vehicle not found") ∧
    (requestEmergencyAssistance FleetState.empty 0 "e-1" ⟨"", "flat tire", "Depot"⟩).1 =
      .error (.NotFound "Vehicle not found") ∧
    (requestEmergencyAssistance_v2 FleetState.empty 0 "e-1" ⟨"", "flat tire", "Depot"⟩).1 =
      .error (.NotFound "Vehicle not found") :=
  ⟨rfl, rfl, rfl, rfl, rfl, rfl, rfl, rfl⟩

/-- C6 (amended): `createDriver`, `createVehicle` (both variants) and
`createRoute` do reject an empty/zero required field as `InvalidPayload`
before any lookup; but none of the create operations that reference another
entity validates its reference fields — `createBooking` checks only
`from_location`, `to_location` and `start_time`, `recordFuelConsumption`
checks only the amount guard (which an empty `amount` passes, since
`parseFloat("")` is NaN), `scheduleMaintenance` checks only `description`
and `scheduled_date`, and `requestEmergencyAssistance` checks only
`description` and `location` — so an empty `vehicle_id` (or `driver_id`) is
never rejected as `InvalidPayload`: the referenced-entity lookup runs, and
when no stored vehicle carries the empty id it yields `NotFound`. -/
theorem claim6_create_validation_amended :
    (∀ (st : FleetState) (caller : String) (now : Nat) (newId : String)
        (p : DriverPayload),
      (p.name = "" ∨ p.license_number = "" ∨ p.contact_info = "") →
      (createDriver st caller now newId p).1 =
        .error (.InvalidPayload "Missing required fields")) ∧
    (∀ (st : FleetState) (now : Nat) (newId : String) (p : VehiclePayload),
      (p.registration_number = "" ∨ p.model = "" ∨ p.capacity = 0 ∨ p.location = "") →
      (createVehicle st now newId p).1 =
        .error (.InvalidPayload "Missing or invalid vehicle data") ∧
      (createVehicle_v2 st now newId p).1 =
        .error (.InvalidPayload "Missing required fields")) ∧
    (∀ (st : FleetState) (newId : String) (p : RoutePayload),
      (p.from_location = "" ∨ p.to_location = "") →
      (createRoute st newId p).1 = .error (.InvalidPayload "Invalid route data")) ∧
    (∀ (st : FleetState) (now : Nat) (newId : String) (p : BookingPayload),
      p.from_location ≠ "" → p.to_location ≠ "" → now < p.start_time →
      st.vehicleStorage.values.filter (fun v => v.id == p.vehicle_id) = [] →
      (createBooking st now newId p).1 = .error (.NotFound "Vehicle not found") ∧
      (createBooking_v2 st now newId p).1 = .error (.NotFound "Vehicle not found")) ∧
    (amountLeZero "" = false) ∧
    (∀ (st : FleetState) (newId : String) (p : FuelConsumptionPayload),
      amountLeZero p.amount = false →
      st.vehicleStorage.get p.vehicle_id = none →
      (recordFuelConsumption st newId p).1 = .error (.NotFound "Vehicle not found")) ∧
    (∀ (st : FleetState) (newId : String) (p : FuelConsumptionPayload),
      amountLeZero p.amount = false →
      st.vehicleStorage.values.filter (fun v => v.id == p.vehicle_id) = [] →
      (recordFuelConsumption_v2 st newId p).1 = .error (.NotFound "Vehicle not found")) ∧
    (∀ (st : FleetState) (now : Nat) (newId : String) (p : MaintenancePayload),
      p.description ≠ "" → now < p.scheduled_date →
      st.vehicleStorage.get p.vehicle_id = none →
      (scheduleMaintenance st now newId p).1 = .error (.NotFound "Vehicle not found")) ∧
    (∀ (st : FleetState) (now : Nat) (newId : String) (p : MaintenancePayload),
      p.description ≠ "" → now < p.scheduled_date →
      st.vehicleStorage.values.filter (fun v => v.id == p.vehicle_id) = [] →
      (scheduleMaintenance_v2 st now newId p).1 = .error (.NotFound "Vehicle not found")) ∧
    (∀ (st : FleetState) (now : Nat) (newId : String) (p : EmergencyAssistancePayload),
      p.description ≠ "" → p.location ≠ "" →
      st.vehicleStorage.get p.vehicle_id = none →
      (requestEmergencyAssistance st now newId p).1 =
        .error (.NotFound "Vehicle not found")) ∧
    (∀ (st : FleetState) (now : Nat) (newId : String) (p : EmergencyAssistancePayload),
      p.description ≠ "" → p.location ≠ "" →
      st.vehicleStorage.values.filter (fun v => v.id == p.vehicle_id) = [] →
      (requestEmergencyAssistance_v2 st now newId p).1 =
        .error (.NotFound "Vehicle not found")) := by
  refine ⟨fun st caller now newId p h => ?_, fun st now newId p h => ⟨?_, ?_⟩,
    fun st newId p h => ?_, fun st now newId p h1 h2 h3 hfil => ⟨?_, ?_⟩,
    rfl,
    fun st newId p ha hget => ?_, fun st newId p ha hfil => ?_,
    fun st now newId p hd hs hget => ?_, fun st now newId p hd hs hfil => ?_,
    fun st now newId p hd hl hget => ?_, fun st now newId p hd hl hfil => ?_⟩
  · unfold createDriver
    rw [if_pos h]
  · unfold createVehicle
    have h' : p.registration_number = "" ∨ p.model = "" ∨ p.capacity ≤ 0 ∨ p.location = "" := by
      rcases h with h | h | h | h
      · exact Or.inl h
      · exact Or.inr (Or.inl h)
      · exact Or.inr (Or.inr (Or.inl (by omega)))
      · exact Or.inr (Or.inr (Or.inr h))
    rw [if_pos h']
  · unfold createVehicle_v2
    rw [if_pos h]
  · unfold createRoute
    rw [if_pos h]
  · unfold createBooking
    rw [if_neg (by push_neg; exact ⟨h1, h2, h3⟩), hfil]
  · unfold createBooking_v2
    rw [if_neg (by push_neg; exact ⟨h1, h2, h3⟩), hfil]
  · unfold recordFuelConsumption
    rw [if_neg (by simp [ha]), hget]
  · unfold recordFuelConsumption_v2
    rw [if_neg (by simp [ha]), hfil]
  · unfold scheduleMaintenance
    rw [if_neg (by push_neg; exact ⟨hd, hs⟩), hget]
  · unfold scheduleMaintenance_v2
    rw [if_neg (by push_neg; exact ⟨hd, hs⟩), hfil]
  · unfold requestEmergencyAssistance
    rw [if_neg (by push_neg; exact ⟨hd, hl⟩), hget]
  · unfold requestEmergencyAssistance_v2
    rw [if_neg (by push_neg; exact ⟨hd, hl⟩), hfil]

/-- Witness for C6 (amended): a missing driver name, a zero capacity, and an
absent vehicle reference for each of the booking, fuel, maintenance and
emergency create operations, each at a concrete state. -/
theorem claim6_witness :
    (createDriver baseState "alice" 5 "drv-9" ⟨"", "L", "c"⟩).1 =
      .error (.InvalidPayload "Missing required fields") ∧
    (createVehicle baseState 5 "veh-9" ⟨"R", "M", 0, "Loc"⟩).1 =
      .error (.InvalidPayload "Missing or invalid vehicle data") ∧
    (createBooking baseState 0 "bk-9" ⟨"nope", "drv-1", "A", "B", 10, 20⟩).1 =
      .error (.NotFound "Vehicle not found") ∧
    (recordFuelConsumption baseState "fc-9" ⟨"nope", "5.5", 5⟩).1 =
      .error (.NotFound "Vehicle not found") ∧
    (scheduleMaintenance baseState 0 "m-9" ⟨"nope", "oil change", 10⟩).1 =
      .error (.NotFound "Vehicle not found") ∧
    (requestEmergencyAssistance baseState 0 "e-9" ⟨"nope", "flat tire", "Depot"⟩).1 =
      .error (.NotFound "Vehicle not found") :=
  ⟨claim6_create_validation_amended.1 baseState "alice" 5 "drv-9" ⟨"", "L", "c"⟩ (Or.inl rfl),
   (claim6_create_validation_amended.2.1 baseState 5 "veh-9" ⟨"R", "M", 0, "Loc"⟩
      (Or.inr (Or.inr (Or.inl rfl)))).1,
   (claim6_create_validation_amended.2.2.2.1 baseState 0 "bk-9" ⟨"nope", "drv-1", "A", "B", 10, 20⟩
      (by decide) (by decide) (by decide) rfl).1,
   claim6_create_validation_amended.2.2.2.2.2.1 baseState "fc-9" ⟨"nope", "5.5", 5⟩ rfl rfl,
   claim6_create_validation_amended.2.2.2.2.2.2.2.1 baseState 0 "m-9" ⟨"nope", "oil change", 10⟩
      (by decide) (by decide) rfl,
   claim6_create_validation_amended.2.2.2.2.2.2.2.2.2.1 baseState 0 "e-9"
      ⟨"nope", "flat tire", "Depot"⟩ (by decide) (by decide) rfl⟩

end Fleet
namespace Fleet

/-- C7: whenever any state-mutating entry point (of either variant) returns
an error result, the whole seven-store state is exactly as before the call:
no insert, overwrite or removal happens on any error path.  (The remaining
entry points are `query` methods — pure reads that mutate nothing by
construction.) -/
theorem claim7_error_results_mutate_nothing (st : FleetState) (c : UpdateCall)
    (h : (runUpdate st c).1 = true) : (runUpdate st c).2 = st := by
  cases c with
  | doCreateDriver caller now newId p => exact createDriver_err_frame st caller now newId p h
  | doDeleteDriver driverId => exact deleteDriver_err_frame st driverId h
  | doCreateVehicle now newId p => exact createVehicle_err_frame st now newId p h
  | doCreateVehicle_v2 now newId p => exact createVehicle_v2_err_frame st now newId p h
  | doDeleteVehicle vehicleId => exact deleteVehicle_err_frame st vehicleId h
  | doUpdateVehicleStatus vehicleId status => exact updateVehicleStatus_err_frame st vehicleId status h
  | doCreateBooking now newId p => exact createBooking_err_frame st now newId p h
  | doCreateBooking_v2 now newId p => exact createBooking_v2_err_frame st now newId p h
  | doRecordFuelConsumption newId p => exact recordFuelConsumption_err_frame st newId p h
  | doRecordFuelConsumption_v2 newId p => exact recordFuelConsumption_v2_err_frame st newId p h
  | doScheduleMaintenance now newId p => exact scheduleMaintenance_err_frame st now newId p h
  | doScheduleMaintenance_v2 now newId p => exact scheduleMaintenance_v2_err_frame st now newId p h
  | doRequestEmergencyAssistance now newId p => exact requestEmergencyAssistance_err_frame st now newId p h
  | doRequestEmergencyAssistance_v2 now newId p => exact requestEmergencyAssistance_v2_err_frame st now newId p h
  | doCreateRoute newId p => exact createRoute_err_frame st newId p h

/-- Witness for C7: a rejected `createDriver` (empty name) and a rejected
`updateVehicleStatus` (unknown id) leave the concrete state untouched. -/
theorem claim7_witness :
    (runUpdate baseState (.doCreateDriver "alice" 5 "drv-9" ⟨"", "L", "c"⟩)).1 = true ∧
    (runUpdate baseState (.doCreateDriver "alice" 5 "drv-9" ⟨"", "L", "c"⟩)).2 = baseState ∧
    (runUpdate baseState (.doUpdateVehicleStatus "ghost" .Booked)).1 = true ∧
    (runUpdate baseState (.doUpdateVehicleStatus "ghost" .Booked)).2 = baseState :=
  ⟨rfl, claim7_error_results_mutate_nothing baseState _ rfl,
   rfl, claim7_error_results_mutate_nothing baseState _ rfl⟩

/-- C8: a vehicle payload with capacity 0 (the only nat64 value `<= 0`) is
rejected as `InvalidPayload` by both variants of `createVehicle`, whatever
the registration number, model and location, and the state is unchanged. -/
theorem claim8_zero_capacity_rejected (st : FleetState) (now : Nat)
    (newId : String) (p : VehiclePayload) (h : p.capacity = 0) :
    (createVehicle st now newId p).1 =
      .error (.InvalidPayload "Missing or invalid vehicle data") ∧
    (createVehicle st now newId p).2 = st ∧
    (createVehicle_v2 st now newId p).1 =
      .error (.InvalidPayload "Missing required fields") ∧
    (createVehicle_v2 st now newId p).2 = st := by
  have h1 : p.registration_number = "" ∨ p.model = "" ∨ p.capacity ≤ 0 ∨ p.location = "" :=
    Or.inr (Or.inr (Or.inl (by omega)))
  have h2 : p.registration_number = "" ∨ p.model = "" ∨ p.capacity = 0 ∨ p.location = "" :=
    Or.inr (Or.inr (Or.inl h))
  refine ⟨?_, ?_, ?_, ?_⟩
  · unfold createVehicle
    rw [if_pos h1]
  · unfold createVehicle
    rw [if_pos h1]
  · unfold createVehicle_v2
    rw [if_pos h2]
  · unfold createVehicle_v2
    rw [if_pos h2]

/-- Witness for C8 at a concrete zero-capacity payload. -/
theorem claim8_witness :
    (createVehicle baseState 5 "veh-9" ⟨"REG-9", "ModelZ", 0, "Depot"⟩).1 =
      .error (.InvalidPayload "Missing or invalid vehicle data") ∧
    (createVehicle_v2 baseState 5 "veh-9" ⟨"REG-9", "ModelZ", 0, "Depot"⟩).1 =
      .error (.InvalidPayload "Missing required fields") :=
  ⟨(claim8_zero_capacity_rejected baseState 5 "veh-9" ⟨"REG-9", "ModelZ", 0, "Depot"⟩ rfl).1,
   (claim8_zero_capacity_rejected baseState 5 "veh-9" ⟨"REG-9", "ModelZ", 0, "Depot"⟩ rfl).2.2.1⟩

/-- C9: only `createVehicle` (either variant), `deleteVehicle` and
`updateVehicleStatus` ever write `vehicleStorage` — every other entry point
leaves it untouched on every path; and a SUCCESSFUL `createBooking` changes
nothing but `bookingStorage` (one insert of the new booking), so the booked
vehicle keeps its Available status rather than transitioning to Booked. -/
theorem claim9_vehicle_store_frame :
    (∀ (st : FleetState) (c : UpdateCall), isVehicleWriter c = false →
      (runUpdate st c).2.vehicleStorage = st.vehicleStorage) ∧
    (∀ (st : FleetState) (now : Nat) (newId : String) (p : BookingPayload)
        (b : Booking),
      (createBooking st now newId p).1 = .ok b →
      (createBooking st now newId p).2 =
        { st with bookingStorage := st.bookingStorage.insert newId b }) := by
  constructor
  · intro st c h
    cases c with
    | doCreateDriver caller now newId p => exact createDriver_keeps_vehicleStorage st caller now newId p
    | doDeleteDriver driverId => exact deleteDriver_keeps_vehicleStorage st driverId
    | doCreateVehicle now newId p => simp [isVehicleWriter] at h
    | doCreateVehicle_v2 now newId p => simp [isVehicleWriter] at h
    | doDeleteVehicle vehicleId => simp [isVehicleWriter] at h
    | doUpdateVehicleStatus vehicleId status => simp [isVehicleWriter] at h
    | doCreateBooking now newId p => exact createBooking_keeps_vehicleStorage st now newId p
    | doCreateBooking_v2 now newId p => exact createBooking_v2_keeps_vehicleStorage st now newId p
    | doRecordFuelConsumption newId p => exact recordFuelConsumption_keeps_vehicleStorage st newId p
    | doRecordFuelConsumption_v2 newId p => exact recordFuelConsumption_v2_keeps_vehicleStorage st newId p
    | doScheduleMaintenance now newId p => exact scheduleMaintenance_keeps_vehicleStorage st now newId p
    | doScheduleMaintenance_v2 now newId p => exact scheduleMaintenance_v2_keeps_vehicleStorage st now newId p
    | doRequestEmergencyAssistance now newId p => exact requestEmergencyAssistance_keeps_vehicleStorage st now newId p
    | doRequestEmergencyAssistance_v2 now newId p => exact requestEmergencyAssistance_v2_keeps_vehicleStorage st now newId p
    | doCreateRoute newId p => exact createRoute_keeps_vehicleStorage st newId p
  · intro st now newId p b
    unfold createBooking
    (repeat' split) <;> intro h <;> simp_all

/-- Witness for C9: a fuel record leaves `vehicleStorage` alone, and the
successful concrete booking changes only `bookingStorage` — the booked
vehicle is still stored with status Available afterwards. -/
theorem claim9_witness :
    (runUpdate baseState (.doRecordFuelConsumption "fc-1" ⟨"veh-1", "5.5", 5⟩)).2.vehicleStorage =
      baseState.vehicleStorage ∧
    (createBooking baseState 1000 "bk-1" samplePayload).2 =
      { baseState with bookingStorage := baseState.bookingStorage.insert "bk-1" sampleBooking } ∧
    (createBooking baseState 1000 "bk-1" samplePayload).2.vehicleStorage.get "veh-1" =
      some sampleVehicle :=
  ⟨claim9_vehicle_store_frame.1 baseState _ rfl,
   claim9_vehicle_store_frame.2 baseState 1000 "bk-1" samplePayload sampleBooking rfl,
   rfl⟩

/-- C10: for a validated vehicle id present in the store,
`updateVehicleStatus` succeeds and overwrites ONLY that vehicle's status
field — id, registration number, model, capacity, location, creation time
are kept — every other vehicle record is unchanged, and the six other entity
stores are untouched.  (Any id actually present is uuid-generated, hence
passes `validateId`.) -/
theorem claim10_update_status_overwrites_only_status (st : FleetState)
    (vehicleId : String) (status : VehicleStatus) (v : Vehicle)
    (hid : validateId vehicleId = true)
    (hget : st.vehicleStorage.get vehicleId = some v) :
    (updateVehicleStatus st vehicleId status).1 =
      .ok (.Success "Vehicle status updated successfully") ∧
    (updateVehicleStatus st vehicleId status).2.vehicleStorage.get vehicleId =
      some { v with status := status } ∧
    (∀ k, k ≠ vehicleId →
      (updateVehicleStatus st vehicleId status).2.vehicleStorage.get k =
        st.vehicleStorage.get k) ∧
    (updateVehicleStatus st vehicleId status).2.driverStorage = st.driverStorage ∧
    (updateVehicleStatus st vehicleId status).2.bookingStorage = st.bookingStorage ∧
    (updateVehicleStatus st vehicleId status).2.fuelConsumptionStorage = st.fuelConsumptionStorage ∧
    (updateVehicleStatus st vehicleId status).2.maintenanceStorage = st.maintenanceStorage ∧
    (updateVehicleStatus st vehicleId status).2.emergencyAssistanceStorage = st.emergencyAssistanceStorage ∧
    (updateVehicleStatus st vehicleId status).2.routeStorage = st.routeStorage := by
  have hcond : ¬((!validateId vehicleId) = true) := by simp [hid]
  unfold updateVehicleStatus
  rw [if_neg hcond, hget]
  refine ⟨rfl, ?_, ?_, rfl, rfl, rfl, rfl, rfl, rfl⟩
  · exact Store.get_insert_self st.vehicleStorage vehicleId { v with status := status }
  · intro k hk
    exact Store.get_insert_ne st.vehicleStorage vehicleId k { v with status := status } hk

/-- Witness for C10: updating `"veh-1"` to Maintenance at the concrete state. -/
theorem claim10_witness :
    validateId "veh-1" = true ∧
    baseState.vehicleStorage.get "veh-1" = some sampleVehicle ∧
    (updateVehicleStatus baseState "veh-1" .Maintenance).2.vehicleStorage.get "veh-1" =
      some { sampleVehicle with status := .Maintenance } ∧
    (updateVehicleStatus baseState "veh-1" .Maintenance).2.driverStorage =
      baseState.driverStorage :=
  ⟨rfl, rfl,
   (claim10_update_status_overwrites_only_status baseState "veh-1" .Maintenance
      sampleVehicle rfl rfl).2.1,
   (claim10_update_status_overwrites_only_status baseState "veh-1" .Maintenance
      sampleVehicle rfl rfl).2.2.2.1⟩

end Fleet
